import Mathlib

/-!
Verification of the configuration-to-prompt pipeline of the Phonenix-AI
repository (`src/phonenix_agent/config.py` and `src/utils/prompt.py`).

Modelling conventions for the shallow embedding of the Python code:

* A Python dict of known key set is a Lean structure whose fields have type
  `Option (Option α)`: the outer `Option` records whether the key is bound at
  all (`none` = key absent), the inner one whether it is bound to `None`
  (`some none` = key explicitly bound to `None`, `some (some v)` = key bound
  to the value `v`).  `dget` mirrors Python's `dict.get(key, default)`.
* A Python value that may be `None` is an `Option`; `none` models `None`.
* Python `x or d` fallbacks (which treat `None`, `""`, `[]`, `False` as
  falsy) are mirrored by the `pyOr…` helpers.
* String-keyed mappings with unconstrained values (`preferences`,
  `demographics`) are modelled as association lists of string pairs.
* Code paths that raise in Python (attribute access on `None` for a nested
  dict bound to `None`) are modelled with `Except String`.
-/

/-- Python `data.get(key, default)` over the two-level dict-entry encoding:
an absent key yields the default, a key bound to `None` yields `none`. -/
def dget {α : Type} (entry : Option (Option α)) (dflt : Option α) : Option α :=
  match entry with
  | none => dflt
  | some v => v

/-- Python `x or d` for a possibly-`None` string `x`: `None` and `""` are
falsy and fall back to `d`. -/
def pyOrStr (x : Option String) (d : String) : String :=
  match x with
  | none => d
  | some s => if s = "" then d else s

/-- Python `x or []` for a possibly-`None` list `x`: `None` and `[]` are
falsy and fall back to the empty list. -/
def pyOrList {α : Type} (x : Option (List α)) : List α :=
  match x with
  | none => []
  | some l => if l.isEmpty then [] else l

/-- Python `x or False` for a possibly-`None` bool `x`. -/
def pyOrBool (x : Option Bool) : Bool :=
  match x with
  | none => false
  | some b => b

/-! ## Entity set (`src/phonenix_agent/config.py`) -/

/-- `AgentPersonality` attribute record. `traits` and `communication_style`
are stored in `__init__` without an `or`-fallback, so they can hold `None`
when `from_dict` receives an explicit `None`; the other three are
`or`-normalised to fixed strings. -/
structure AgentPersonality where
  traits : Option (List String)
  communication_style : Option String
  tone : String
  expertise_level : String
  response_speed : String
deriving Repr, DecidableEq

/-- `AgentPersonality.__init__` (config.py lines 13-25). -/
def AgentPersonality.init (traits : Option (List String))
    (communication_style : Option String)
    (tone expertise_level response_speed : Option String) : AgentPersonality :=
  { traits := traits
    communication_style := communication_style
    tone := pyOrStr tone "professional"
    expertise_level := pyOrStr expertise_level "expert"
    response_speed := pyOrStr response_speed "conversational" }

/-- The plain mapping produced/consumed by `AgentPersonality.to_dict` /
`from_dict`. -/
structure PersonalityDict where
  traits : Option (Option (List String))
  communication_style : Option (Option String)
  tone : Option (Option String)
  expertise_level : Option (Option String)
  response_speed : Option (Option String)
deriving Repr, DecidableEq

/-- The empty dict `{}` of `AgentPersonality` shape. -/
def PersonalityDict.empty : PersonalityDict :=
  ⟨none, none, none, none, none⟩

/-- `AgentPersonality.to_dict` (config.py lines 27-35): every key present. -/
def AgentPersonality.to_dict (p : AgentPersonality) : PersonalityDict :=
  { traits := some p.traits
    communication_style := some p.communication_style
    tone := some (some p.tone)
    expertise_level := some (some p.expertise_level)
    response_speed := some (some p.response_speed) }

/-- `AgentPersonality.from_dict` (config.py lines 37-46). -/
def AgentPersonality.from_dict (data : PersonalityDict) : AgentPersonality :=
  AgentPersonality.init
    (dget data.traits (some []))
    (dget data.communication_style (some "professional"))
    (dget data.tone none)
    (dget data.expertise_level none)
    (dget data.response_speed none)

/-- `CompanyDetails` attribute record.  `specialties` and `values` are
`or`-normalised to lists in `__init__`; the rest are stored as given. -/
structure CompanyDetails where
  name : Option String
  description : Option String
  specialties : List String
  location : Option String
  years_in_business : Option Int
  website : Option String
  phone : Option String
  email : Option String
  mission_statement : Option String
  values : List String
deriving Repr, DecidableEq

/-- `CompanyDetails.__init__` (config.py lines 52-74). -/
def CompanyDetails.init (name description : Option String)
    (specialties : Option (List String)) (location : Option String)
    (years_in_business : Option Int)
    (website phone email mission_statement : Option String)
    (values : Option (List String)) : CompanyDetails :=
  { name := name
    description := description
    specialties := pyOrList specialties
    location := location
    years_in_business := years_in_business
    website := website
    phone := phone
    email := email
    mission_statement := mission_statement
    values := pyOrList values }

/-- The plain mapping produced/consumed by `CompanyDetails.to_dict` /
`from_dict`. -/
structure CompanyDict where
  name : Option (Option String)
  description : Option (Option String)
  specialties : Option (Option (List String))
  location : Option (Option String)
  years_in_business : Option (Option Int)
  website : Option (Option String)
  phone : Option (Option String)
  email : Option (Option String)
  mission_statement : Option (Option String)
  values : Option (Option (List String))
deriving Repr, DecidableEq

/-- The empty dict `{}` of `CompanyDetails` shape. -/
def CompanyDict.empty : CompanyDict :=
  ⟨none, none, none, none, none, none, none, none, none, none⟩

/-- `CompanyDetails.to_dict` (config.py lines 76-89). -/
def CompanyDetails.to_dict (c : CompanyDetails) : CompanyDict :=
  { name := some c.name
    description := some c.description
    specialties := some (some c.specialties)
    location := some c.location
    years_in_business := some c.years_in_business
    website := some c.website
    phone := some c.phone
    email := some c.email
    mission_statement := some c.mission_statement
    values := some (some c.values) }

/-- `CompanyDetails.from_dict` (config.py lines 91-105). -/
def CompanyDetails.from_dict (data : CompanyDict) : CompanyDetails :=
  CompanyDetails.init
    (dget data.name (some ""))
    (dget data.description none)
    (dget data.specialties none)
    (dget data.location none)
    (dget data.years_in_business none)
    (dget data.website none)
    (dget data.phone none)
    (dget data.email none)
    (dget data.mission_statement none)
    (dget data.values none)

/-- `UserContext` attribute record.  The four collections are
`or`-normalised to empty collections in `__init__`. -/
structure UserContext where
  name : Option String
  email : Option String
  phone : Option String
  preferences : List (String × String)
  previous_interactions : List String
  notes : Option String
  demographics : List (String × String)
  pain_points : List String
  goals : List String
  budget : Option String
  timeline : Option String
deriving Repr, DecidableEq

/-- `UserContext.__init__` (config.py lines 111-135). -/
def UserContext.init (name email phone : Option String)
    (preferences : Option (List (String × String)))
    (previous_interactions : Option (List String)) (notes : Option String)
    (demographics : Option (List (String × String)))
    (pain_points goals : Option (List String))
    (budget timeline : Option String) : UserContext :=
  { name := name
    email := email
    phone := phone
    preferences := pyOrList preferences
    previous_interactions := pyOrList previous_interactions
    notes := notes
    demographics := pyOrList demographics
    pain_points := pyOrList pain_points
    goals := pyOrList goals
    budget := budget
    timeline := timeline }

/-- The plain mapping produced/consumed by `UserContext.to_dict` /
`from_dict`. -/
structure UserCtxDict where
  name : Option (Option String)
  email : Option (Option String)
  phone : Option (Option String)
  preferences : Option (Option (List (String × String)))
  previous_interactions : Option (Option (List String))
  notes : Option (Option String)
  demographics : Option (Option (List (String × String)))
  pain_points : Option (Option (List String))
  goals : Option (Option (List String))
  budget : Option (Option String)
  timeline : Option (Option String)
deriving Repr, DecidableEq

/-- The empty dict `{}` of `UserContext` shape. -/
def UserCtxDict.empty : UserCtxDict :=
  ⟨none, none, none, none, none, none, none, none, none, none, none⟩

/-- `UserContext.to_dict` (config.py lines 137-151). -/
def UserContext.to_dict (u : UserContext) : UserCtxDict :=
  { name := some u.name
    email := some u.email
    phone := some u.phone
    preferences := some (some u.preferences)
    previous_interactions := some (some u.previous_interactions)
    notes := some u.notes
    demographics := some (some u.demographics)
    pain_points := some (some u.pain_points)
    goals := some (some u.goals)
    budget := some u.budget
    timeline := some u.timeline }

/-- `UserContext.from_dict` (config.py lines 153-168). -/
def UserContext.from_dict (data : UserCtxDict) : UserContext :=
  UserContext.init
    (dget data.name none)
    (dget data.email none)
    (dget data.phone none)
    (dget data.preferences none)
    (dget data.previous_interactions none)
    (dget data.notes none)
    (dget data.demographics none)
    (dget data.pain_points none)
    (dget data.goals none)
    (dget data.budget none)
    (dget data.timeline none)

/-- `CallContext` attribute record.  `priority`, `follow_up_required`,
`success_metrics`, `key_points` are `or`-normalised in `__init__`;
`purpose` is stored as given. -/
structure CallContext where
  purpose : Option String
  priority : String
  expected_duration : Option String
  follow_up_required : Bool
  success_metrics : List String
  call_script : Option String
  key_points : List String
deriving Repr, DecidableEq

/-- `CallContext.__init__` (config.py lines 174-190). -/
def CallContext.init (purpose priority expected_duration : Option String)
    (follow_up_required : Option Bool)
    (success_metrics : Option (List String)) (call_script : Option String)
    (key_points : Option (List String)) : CallContext :=
  { purpose := purpose
    priority := pyOrStr priority "normal"
    expected_duration := expected_duration
    follow_up_required := pyOrBool follow_up_required
    success_metrics := pyOrList success_metrics
    call_script := call_script
    key_points := pyOrList key_points }

/-- The plain mapping produced/consumed by `CallContext.to_dict` /
`from_dict`. -/
structure CallCtxDict where
  purpose : Option (Option String)
  priority : Option (Option String)
  expected_duration : Option (Option String)
  follow_up_required : Option (Option Bool)
  success_metrics : Option (Option (List String))
  call_script : Option (Option String)
  key_points : Option (Option (List String))
deriving Repr, DecidableEq

/-- The empty dict `{}` of `CallContext` shape. -/
def CallCtxDict.empty : CallCtxDict :=
  ⟨none, none, none, none, none, none, none⟩

/-- `CallContext.to_dict` (config.py lines 192-202). -/
def CallContext.to_dict (c : CallContext) : CallCtxDict :=
  { purpose := some c.purpose
    priority := some (some c.priority)
    expected_duration := some c.expected_duration
    follow_up_required := some (some c.follow_up_required)
    success_metrics := some (some c.success_metrics)
    call_script := some c.call_script
    key_points := some (some c.key_points) }

/-- `CallContext.from_dict` (config.py lines 204-215). -/
def CallContext.from_dict (data : CallCtxDict) : CallContext :=
  CallContext.init
    (dget data.purpose (some ""))
    (dget data.priority none)
    (dget data.expected_duration none)
    (dget data.follow_up_required none)
    (dget data.success_metrics none)
    (dget data.call_script none)
    (dget data.key_points none)

/-! ## AgentConfig aggregate -/

/-- `AgentConfig` attribute record (config.py lines 218-243). -/
structure AgentConfig where
  agent_name : Option String
  company_details : CompanyDetails
  agent_personality : AgentPersonality
  call_context : CallContext
  user_context : UserContext
  industry : Option String
  custom_instructions : Option String
  language : Option String
  timezone : Option String
  compliance_requirements : List String
deriving Repr, DecidableEq

/-- `AgentConfig.__init__` (config.py lines 221-243).  Call sites that omit
a parameter with a Python default supply that default (`some "real estate"`,
`some "en"`, `none`) explicitly. -/
def AgentConfig.init (agent_name : Option String)
    (company_details : CompanyDetails) (agent_personality : AgentPersonality)
    (call_context : CallContext) (user_context : UserContext)
    (industry custom_instructions language timezone : Option String)
    (compliance_requirements : Option (List String)) : AgentConfig :=
  { agent_name := agent_name
    company_details := company_details
    agent_personality := agent_personality
    call_context := call_context
    user_context := user_context
    industry := industry
    custom_instructions := custom_instructions
    language := language
    timezone := timezone
    compliance_requirements := pyOrList compliance_requirements }

/-- The canonical nested mapping produced/consumed by `AgentConfig.to_dict`
/ `from_dict`. -/
structure ConfigDict where
  agent_name : Option (Option String)
  company_details : Option (Option CompanyDict)
  agent_personality : Option (Option PersonalityDict)
  call_context : Option (Option CallCtxDict)
  user_context : Option (Option UserCtxDict)
  industry : Option (Option String)
  custom_instructions : Option (Option String)
  language : Option (Option String)
  timezone : Option (Option String)
  compliance_requirements : Option (Option (List String))
deriving Repr, DecidableEq

/-- The empty dict `{}` of canonical `AgentConfig` shape. -/
def ConfigDict.empty : ConfigDict :=
  ⟨none, none, none, none, none, none, none, none, none, none⟩

/-- `AgentConfig.to_dict` (config.py lines 245-258). -/
def AgentConfig.to_dict (c : AgentConfig) : ConfigDict :=
  { agent_name := some c.agent_name
    company_details := some (some c.company_details.to_dict)
    agent_personality := some (some c.agent_personality.to_dict)
    call_context := some (some c.call_context.to_dict)
    user_context := some (some c.user_context.to_dict)
    industry := some c.industry
    custom_instructions := some c.custom_instructions
    language := some c.language
    timezone := some c.timezone
    compliance_requirements := some (some c.compliance_requirements) }

/-- `AgentConfig.from_dict` (config.py lines 260-274).  A nested key bound
to `None` makes the Python code call `.get` on `None` inside the nested
`from_dict`, which raises `AttributeError`; that path is the `.error`
branch. -/
def AgentConfig.from_dict (data : ConfigDict) : Except String AgentConfig :=
  match dget data.company_details (some CompanyDict.empty),
        dget data.agent_personality (some PersonalityDict.empty),
        dget data.call_context (some CallCtxDict.empty),
        dget data.user_context (some UserCtxDict.empty) with
  | some cd, some ap, some cc, some uc =>
    .ok (AgentConfig.init
      (dget data.agent_name (some "Professional Assistant"))
      (CompanyDetails.from_dict cd)
      (AgentPersonality.from_dict ap)
      (CallContext.from_dict cc)
      (UserContext.from_dict uc)
      (dget data.industry (some "real estate"))
      (dget data.custom_instructions none)
      (dget data.language (some "en"))
      (dget data.timezone none)
      (dget data.compliance_requirements none))
  | _, _, _, _ => .error "AttributeError: NoneType object has no attribute get"

/-! ## Legacy metadata adapter -/

/-- The flat legacy `agent_config` sub-mapping consumed by
`AgentConfig.from_legacy_metadata` (config.py lines 281-311).  Besides the
keys the adapter actually reads (`agent_name`, `company_name`,
`company_details`, `agent_personality`, `industry`, `custom_instructions`),
the model also carries keys that share a name with non-legacy `AgentConfig`
fields; the adapter never looks at them. -/
structure LegacyAgentConfigDict where
  agent_name : Option (Option String)
  company_name : Option (Option String)
  company_details : Option (Option CompanyDict)
  agent_personality : Option (Option PersonalityDict)
  industry : Option (Option String)
  custom_instructions : Option (Option String)
  language : Option (Option String)
  timezone : Option (Option String)
  compliance_requirements : Option (Option (List String))
  priority : Option (Option String)
  follow_up_required : Option (Option Bool)
  success_metrics : Option (Option (List String))
  key_points : Option (Option (List String))
deriving Repr, DecidableEq

/-- The empty dict `{}` of legacy `agent_config` shape. -/
def LegacyAgentConfigDict.empty : LegacyAgentConfigDict :=
  ⟨none, none, none, none, none, none, none, none, none, none, none, none, none⟩

/-- The legacy top-level metadata mapping (spec section 6): `phone_number`,
`transfer_to`, `call_purpose`, `user_details`, `agent_config`.  A decoy
`call_context` key is also carried; the adapter never reads it. -/
structure LegacyMetadata where
  phone_number : Option (Option String)
  transfer_to : Option (Option String)
  call_purpose : Option (Option String)
  user_details : Option (Option UserCtxDict)
  agent_config : Option (Option LegacyAgentConfigDict)
  call_context : Option (Option CallCtxDict)
deriving Repr, DecidableEq

/-- The empty metadata mapping `{}`. -/
def LegacyMetadata.empty : LegacyMetadata :=
  ⟨none, none, none, none, none, none⟩

/-- `AgentConfig.from_legacy_metadata` (config.py lines 276-312).  The four
`.get(key, {})` lookups of nested mappings yield `None` when the key is
bound to `None`; the subsequent `.get` on `None` raises `AttributeError` in
Python, modelled by the `.error` branches.  An absent nested key is treated
as `{}`. -/
def AgentConfig.from_legacy_metadata (metadata : LegacyMetadata) :
    Except String AgentConfig :=
  match dget metadata.agent_config (some LegacyAgentConfigDict.empty) with
  | none => .error "AttributeError: NoneType object has no attribute get"
  | some agent_config =>
    match dget agent_config.company_details (some CompanyDict.empty) with
    | none => .error "AttributeError: NoneType object has no attribute get"
    | some company_details =>
      match dget agent_config.agent_personality (some PersonalityDict.empty) with
      | none => .error "AttributeError: NoneType object has no attribute get"
      | some agent_personality =>
        match dget metadata.user_details (some UserCtxDict.empty) with
        | none => .error "AttributeError: NoneType object has no attribute get"
        | some user_details =>
          .ok (AgentConfig.init
            (dget agent_config.agent_name (some "Professional Assistant"))
            (CompanyDetails.init
              (dget agent_config.company_name (some "Our Company"))
              (dget company_details.description none)
              (dget company_details.specialties none)
              (dget company_details.location none)
              (dget company_details.years_in_business none)
              none none none none none)
            (AgentPersonality.init
              (dget agent_personality.traits
                (some ["professional", "friendly", "consultative"]))
              (dget agent_personality.communication_style
                (some "warm and professional"))
              none none none)
            (CallContext.init
              (dget metadata.call_purpose (some "general inquiry"))
              none none none none none none)
            (UserContext.init
              (dget user_details.name none)
              (dget user_details.email none)
              (dget user_details.phone none)
              (dget user_details.preferences none)
              (dget user_details.previous_interactions none)
              (dget user_details.notes none)
              none none none none none)
            (dget agent_config.industry (some "real estate"))
            (dget agent_config.custom_instructions none)
            (some "en")
            none
            none)

/-! ## AgentConfigBuilder (config.py lines 315-373) -/

/-- `AgentConfigBuilder`: its `_config` accumulator dict. -/
structure AgentConfigBuilder where
  _config : ConfigDict
deriving Repr, DecidableEq

/-- `AgentConfigBuilder.__init__`: starts from the empty dict. -/
def AgentConfigBuilder.new : AgentConfigBuilder :=
  ⟨ConfigDict.empty⟩

/-- `with_agent_name` (config.py lines 321-324): stores the scalar and
returns the (updated) builder for chaining. -/
def AgentConfigBuilder.with_agent_name (b : AgentConfigBuilder)
    (name : String) : AgentConfigBuilder :=
  ⟨{ b._config with agent_name := some (some name) }⟩

/-- `with_company` (config.py lines 326-329): stores
`company_details.to_dict()`. -/
def AgentConfigBuilder.with_company (b : AgentConfigBuilder)
    (company_details : CompanyDetails) : AgentConfigBuilder :=
  ⟨{ b._config with company_details := some (some company_details.to_dict) }⟩

/-- `with_personality` (config.py lines 331-334). -/
def AgentConfigBuilder.with_personality (b : AgentConfigBuilder)
    (personality : AgentPersonality) : AgentConfigBuilder :=
  ⟨{ b._config with agent_personality := some (some personality.to_dict) }⟩

/-- `with_call_context` (config.py lines 336-339). -/
def AgentConfigBuilder.with_call_context (b : AgentConfigBuilder)
    (call_context : CallContext) : AgentConfigBuilder :=
  ⟨{ b._config with call_context := some (some call_context.to_dict) }⟩

/-- `with_user_context` (config.py lines 341-344). -/
def AgentConfigBuilder.with_user_context (b : AgentConfigBuilder)
    (user_context : UserContext) : AgentConfigBuilder :=
  ⟨{ b._config with user_context := some (some user_context.to_dict) }⟩

/-- `with_industry` (config.py lines 346-349). -/
def AgentConfigBuilder.with_industry (b : AgentConfigBuilder)
    (industry : String) : AgentConfigBuilder :=
  ⟨{ b._config with industry := some (some industry) }⟩

/-- `with_custom_instructions` (config.py lines 351-354). -/
def AgentConfigBuilder.with_custom_instructions (b : AgentConfigBuilder)
    (instructions : String) : AgentConfigBuilder :=
  ⟨{ b._config with custom_instructions := some (some instructions) }⟩

/-- `with_language` (config.py lines 356-359). -/
def AgentConfigBuilder.with_language (b : AgentConfigBuilder)
    (language : String) : AgentConfigBuilder :=
  ⟨{ b._config with language := some (some language) }⟩

/-- `with_timezone` (config.py lines 361-364). -/
def AgentConfigBuilder.with_timezone (b : AgentConfigBuilder)
    (timezone : String) : AgentConfigBuilder :=
  ⟨{ b._config with timezone := some (some timezone) }⟩

/-- `with_compliance_requirements` (config.py lines 366-369). -/
def AgentConfigBuilder.with_compliance_requirements (b : AgentConfigBuilder)
    (requirements : List String) : AgentConfigBuilder :=
  ⟨{ b._config with compliance_requirements := some (some requirements) }⟩

/-- `build` (config.py lines 371-373): delegates to `AgentConfig.from_dict`
on the accumulated mapping. -/
def AgentConfigBuilder.build (b : AgentConfigBuilder) :
    Except String AgentConfig :=
  AgentConfig.from_dict b._config

/-! ## Prompt rendering (`src/utils/prompt.py`) -/

/-- Python f-string interpolation of a possibly-`None` string:
`str(None)` is the literal `"None"`. -/
def interpStr (x : Option String) : String :=
  match x with
  | none => "None"
  | some s => s

/-- Python f-string interpolation of a possibly-`None` integer. -/
def interpInt (x : Option Int) : String :=
  match x with
  | none => "None"
  | some n => toString n

/-- Python truthiness of a possibly-`None` string: `None` and `""` are
falsy. -/
def pyTruthyStr (x : Option String) : Bool :=
  match x with
  | none => false
  | some s => !(s == "")

/-- Python truthiness of a possibly-`None` integer: `None` and `0` are
falsy. -/
def pyTruthyInt (x : Option Int) : Bool :=
  match x with
  | none => false
  | some n => !(n == 0)

/-- JSON escaping of one character, as `json.dumps` performs on strings. -/
def jsonEscapeChar (c : Char) : List Char :=
  if c = '"' then ['\\', '"']
  else if c = '\\' then ['\\', '\\']
  else [c]

/-- A JSON string literal for `s`. -/
def jsonStr (s : String) : String :=
  "\"" ++ String.mk ((s.data.map jsonEscapeChar).flatten) ++ "\""

/-- `json.dumps` of a string-to-string mapping (association list, insertion
order preserved as Python dicts do). -/
def jsonDumpsMap (m : List (String × String)) : String :=
  "\x7b" ++ String.intercalate ", "
    (m.map (fun kv => jsonStr kv.1 ++ ": " ++ jsonStr kv.2)) ++ "\x7d"

/-- `json.dumps` of a list of strings. -/
def jsonDumpsList (l : List String) : String :=
  "[" ++ String.intercalate ", " (l.map jsonStr) ++ "]"

/-- Python `str.strip()`: drop whitespace from both ends. -/
def pyStrip (s : String) : String :=
  String.mk (((s.data.dropWhile Char.isWhitespace).reverse.dropWhile
    Char.isWhitespace).reverse)

/-- Replace every occurrence of the character `c` by `rep`
(Python `str.replace` with a one-character pattern). -/
def pyReplaceCharL (c : Char) (rep : List Char) : List Char → List Char
  | [] => []
  | a :: as =>
    if a = c then rep ++ pyReplaceCharL c rep as
    else a :: pyReplaceCharL c rep as

/-- Python `s.replace(c, rep)` for a one-character pattern `c`. -/
def pyReplaceChar (s : String) (c : Char) (rep : String) : String :=
  String.mk (pyReplaceCharL c rep.data s.data)

namespace PromptBuilder

/-- `PromptBuilder._format_company_info` (prompt.py lines 76-106).  The
guard `if not company_details:` never fires (an entity instance is always
truthy in Python), so it is not modelled.  Parts are accumulated in source
order and joined with newlines. -/
def _format_company_info (company_details : CompanyDetails) : String :=
  let info_parts : List String :=
    (if pyTruthyStr company_details.description then
      ["Company Description: " ++ interpStr company_details.description]
     else [])
    ++ (if company_details.specialties.isEmpty then []
     else ["Company Specialties: " ++
        String.intercalate ", " company_details.specialties])
    ++ (if pyTruthyStr company_details.location then
      ["Service Area: " ++ interpStr company_details.location]
     else [])
    ++ (if pyTruthyInt company_details.years_in_business then
      ["Experience: " ++ interpInt company_details.years_in_business ++
        " years in business"]
     else [])
    ++ (if pyTruthyStr company_details.mission_statement then
      ["Mission: " ++ interpStr company_details.mission_statement]
     else [])
    ++ (if company_details.values.isEmpty then []
     else ["Company Values: " ++
        String.intercalate ", " company_details.values])
  if info_parts.isEmpty then "" else String.intercalate "\n" info_parts

/-- The ordered labelled parts of `PromptBuilder._format_user_info`
(prompt.py lines 108-148), before joining. -/
def _user_info_parts (user_context : UserContext) : List String :=
  (if pyTruthyStr user_context.name then
    ["Client Name: " ++ interpStr user_context.name]
   else [])
  ++ (if pyTruthyStr user_context.email then
    ["Client Email: " ++ interpStr user_context.email]
   else [])
  ++ (if pyTruthyStr user_context.phone then
    ["Client Phone: " ++ interpStr user_context.phone]
   else [])
  ++ (if user_context.preferences.isEmpty then []
   else ["Client Preferences: " ++ jsonDumpsMap user_context.preferences])
  ++ (if user_context.previous_interactions.isEmpty then []
   else ["Previous Interactions: " ++
      jsonDumpsList user_context.previous_interactions])
  ++ (if pyTruthyStr user_context.notes then
    ["Additional Notes: " ++ interpStr user_context.notes]
   else [])
  ++ (if user_context.goals.isEmpty then []
   else ["Client Goals: " ++ String.intercalate ", " user_context.goals])
  ++ (if pyTruthyStr user_context.budget then
    ["Budget: " ++ interpStr user_context.budget]
   else [])
  ++ (if pyTruthyStr user_context.timeline then
    ["Timeline: " ++ interpStr user_context.timeline]
   else [])

/-- `PromptBuilder._format_user_info` (prompt.py lines 108-148).  The
`if not user_context:` guard never fires (entity instances are truthy). -/
def _format_user_info (user_context : UserContext) : String :=
  let info_parts := _user_info_parts user_context
  if info_parts.isEmpty then "" else String.intercalate "\n" info_parts

/-- The `"real estate"` knowledge block (prompt.py lines 154-160),
verbatim including the triple-quote indentation. -/
def industryKnowledgeRealEstate : String :=
  "\n                Industry Knowledge:\n                - Knowledgeable about the local real estate market\n                - Understand property values, market trends, and neighborhood insights\n                - Familiar with buying/selling processes, financing options, and legal requirements\n                - Can provide market analysis and property recommendations\n                "

/-- The `"insurance"` knowledge block (prompt.py lines 161-167). -/
def industryKnowledgeInsurance : String :=
  "\n                Industry Knowledge:\n                - Knowledgeable about various insurance products and coverage options\n                - Understand risk assessment and policy customization\n                - Familiar with claims processes and customer protection\n                - Can provide quotes and explain coverage benefits\n                "

/-- The `"financial services"` knowledge block (prompt.py lines 168-174). -/
def industryKnowledgeFinancial : String :=
  "\n                Industry Knowledge:\n                - Knowledgeable about financial products and investment options\n                - Understand market conditions and financial planning\n                - Familiar with regulatory requirements and compliance\n                - Can provide financial advice and product recommendations\n                "

/-- The `"healthcare"` knowledge block (prompt.py lines 175-181). -/
def industryKnowledgeHealthcare : String :=
  "\n                Industry Knowledge:\n                - Knowledgeable about healthcare services and treatment options\n                - Understand patient care and medical procedures\n                - Familiar with insurance coverage and billing processes\n                - Can provide information about appointments and services\n                "

/-- The `"default"` knowledge block (prompt.py lines 182-187). -/
def industryKnowledgeDefault : String :=
  "\n                Industry Knowledge:\n                - Knowledgeable about your industry and market\n                - Professional and consultative in your approach\n                - Focused on understanding client needs and providing value\n                "

/-- The fixed `knowledge_map` table (prompt.py lines 153-188), in source
order. -/
def knowledgeMap : List (String × String) :=
  [("real estate", industryKnowledgeRealEstate),
   ("insurance", industryKnowledgeInsurance),
   ("financial services", industryKnowledgeFinancial),
   ("healthcare", industryKnowledgeHealthcare),
   ("default", industryKnowledgeDefault)]

/-- `PromptBuilder._get_industry_knowledge` (prompt.py lines 150-190):
`knowledge_map.get(industry, knowledge_map["default"])`.  A `None`
industry matches no key and falls back to the default block. -/
def _get_industry_knowledge (industry : Option String) : String :=
  (industry.bind (fun i => knowledgeMap.lookup i)).getD industryKnowledgeDefault

/-- `PromptBuilder.build_prompt` (prompt.py lines 14-74): the f-string
template (with its literal 12-space indentation) interpolated and finally
`.strip()`-ped. -/
def build_prompt (config : AgentConfig) : String :=
  let personality_traits := config.agent_personality.traits
  let personality_str : String :=
    match personality_traits with
    | some l =>
      if l.isEmpty then "professional, friendly, and consultative"
      else String.intercalate ", " l
    | none => "professional, friendly, and consultative"
  let communication_style := config.agent_personality.communication_style
  let company_info := _format_company_info config.company_details
  let user_info := _format_user_info config.user_context
  let industry_knowledge := _get_industry_knowledge config.industry
  let custom_instructions := pyOrStr config.custom_instructions ""
  pyStrip ("\n            You are " ++ interpStr config.agent_name ++ ", a "
    ++ personality_str ++ " " ++ interpStr config.industry
    ++ " professional representing " ++ interpStr config.company_details.name
    ++ ". Your interface with the user is by Telephony (voice call).\n\n            "
    ++ company_info ++ "\n\n            "
    ++ user_info ++ "\n\n            Call Purpose: "
    ++ interpStr config.call_context.purpose
    ++ "\n\n            Personality & Communication Style:\n            - You are "
    ++ interpStr communication_style ++ "\n            - "
    ++ pyReplaceChar personality_str ',' " and"
    ++ " in your approach\n            - Focused on understanding the client's needs and providing value\n            - Respectful of their time and preferences\n\n            "
    ++ industry_knowledge
    ++ "\n\n            Your goal is to engage with the client about their "
    ++ interpStr config.industry
    ++ " needs and provide helpful information or schedule follow-up activities as appropriate.\n            Always be polite and professional. Allow the user to end the conversation when they're ready.\n\n            Available Tools (use when appropriate):\n            - end_call: **MOST IMPORTANT** - Call this when the user wants to end the call, says goodbye, or conversation is complete. ALWAYS call this to properly end calls.\n            - transfer_call: Transfer to a human agent after confirming with user, then call end_call.\n            - schedule_property_viewing: Schedule a property viewing when user requests it (needs: property_address, preferred_date, preferred_time).\n            - schedule_consultation: Schedule a consultation meeting when user wants to meet (needs: consultation_type, date, time).\n            - send_email: Send email to user when requested or for follow-up materials (needs: email_to, subject, body).\n            - get_property_info: Get property details when user asks about a specific property (needs: property_address).\n            - send_property_listings: Send property listings matching user's search criteria (needs: criteria).\n            - detected_answering_machine: Call when you detect voicemail AFTER hearing the greeting.\n\n            "
    ++ custom_instructions ++ "\n        ")

end PromptBuilder

/-! ## Substring and line machinery used to state the prompt claims -/

/-- `isPrefixL pat s`: `pat` is a prefix of `s` (character lists). -/
def isPrefixL : List Char → List Char → Bool
  | [], _ => true
  | _ :: _, [] => false
  | a :: as, b :: bs => a == b && isPrefixL as bs

/-- The remainder of `s` after the first occurrence of `pat`, or `none`
when `pat` does not occur in `s`. -/
def dropAfterFirstL (pat : List Char) : List Char → Option (List Char)
  | [] => if isPrefixL pat [] then some [] else none
  | c :: cs =>
    if isPrefixL pat (c :: cs) then some ((c :: cs).drop pat.length)
    else dropAfterFirstL pat cs

/-- All the given patterns occur in `s`, pairwise disjoint, in the given
order. -/
def containsInOrderL : List Char → List (List Char) → Bool
  | _, [] => true
  | s, t :: ts =>
    match dropAfterFirstL t s with
    | none => false
    | some r => containsInOrderL r ts

/-- All the given strings occur in `s` as disjoint substrings, in the
given order. -/
def containsInOrder (s : String) (ts : List String) : Bool :=
  containsInOrderL s.data (ts.map String.data)

/-- `pat` occurs somewhere in `s`. -/
def containsSub (s pat : String) : Bool :=
  (dropAfterFirstL pat.data s.data).isSome

set_option maxRecDepth 100000

/-! ## Shared helper lemmas -/

/-- Applying the Python `or`-fallback twice with the same string default is
the same as applying it once. -/
theorem pyOrStr_round (x : Option String) (d : String) :
    pyOrStr (some (pyOrStr x d)) d = pyOrStr x d := by
  cases x with
  | none => simp [pyOrStr]
  | some s => by_cases h : s = "" <;> simp [pyOrStr, h]

/-- Applying the Python `or []` fallback twice is the same as once. -/
theorem pyOrList_round {α : Type} (x : Option (List α)) :
    pyOrList (some (pyOrList x)) = pyOrList x := by
  cases x with
  | none => simp [pyOrList]
  | some l => cases l <;> simp [pyOrList]

/-- Applying the Python `or False` fallback twice is the same as once. -/
theorem pyOrBool_round (x : Option Bool) :
    pyOrBool (some (pyOrBool x)) = pyOrBool x := by
  cases x <;> rfl

/-- `AgentPersonality` round-trips through its dict form. -/
theorem personality_roundtrip (t : Option (List String))
    (c tn el rs : Option String) :
    AgentPersonality.from_dict (AgentPersonality.init t c tn el rs).to_dict
      = AgentPersonality.init t c tn el rs := by
  simp [AgentPersonality.from_dict, AgentPersonality.to_dict,
    AgentPersonality.init, dget, pyOrStr_round]

/-- `CompanyDetails` round-trips through its dict form. -/
theorem company_roundtrip (n d : Option String)
    (sp : Option (List String)) (loc : Option String) (y : Option Int)
    (w ph em ms : Option String) (vs : Option (List String)) :
    CompanyDetails.from_dict (CompanyDetails.init n d sp loc y w ph em ms vs).to_dict
      = CompanyDetails.init n d sp loc y w ph em ms vs := by
  simp [CompanyDetails.from_dict, CompanyDetails.to_dict,
    CompanyDetails.init, dget, pyOrList_round]

/-- `UserContext` round-trips through its dict form. -/
theorem user_roundtrip (n e p : Option String)
    (pr : Option (List (String × String))) (pi : Option (List String))
    (no : Option String) (dm : Option (List (String × String)))
    (pp g : Option (List String)) (b tl : Option String) :
    UserContext.from_dict (UserContext.init n e p pr pi no dm pp g b tl).to_dict
      = UserContext.init n e p pr pi no dm pp g b tl := by
  simp [UserContext.from_dict, UserContext.to_dict,
    UserContext.init, dget, pyOrList_round]

/-- `CallContext` round-trips through its dict form. -/
theorem call_roundtrip (p pr ed : Option String) (fu : Option Bool)
    (sm : Option (List String)) (cs : Option String)
    (kp : Option (List String)) :
    CallContext.from_dict (CallContext.init p pr ed fu sm cs kp).to_dict
      = CallContext.init p pr ed fu sm cs kp := by
  simp [CallContext.from_dict, CallContext.to_dict,
    CallContext.init, dget, pyOrStr_round, pyOrBool_round, pyOrList_round]

/-! ## Claims -/

/-- C1: Round-trip law — for any `AgentConfig` built by direct construction
(arbitrary arguments to the five `__init__` constructors),
`AgentConfig.from_dict(c.to_dict())` succeeds and returns `c` field for
field, including every nested entity field. -/
theorem C1_round_trip (pt : Option (List String)) (pc pto pel prs : Option String)
    (cn cdesc : Option String) (csp : Option (List String)) (cloc : Option String)
    (cyears : Option Int) (cweb cphone cemail cmiss : Option String)
    (cvals : Option (List String))
    (un ue up : Option String) (uprefs : Option (List (String × String)))
    (uprev : Option (List String)) (unotes : Option String)
    (udem : Option (List (String × String))) (upain ugoals : Option (List String))
    (ubud utl : Option String)
    (cp cpri cdur : Option String) (cfu : Option Bool)
    (csm : Option (List String)) (cscript : Option String)
    (ckp : Option (List String))
    (an ind ci lang tz : Option String) (cr : Option (List String)) :
    AgentConfig.from_dict
      (AgentConfig.init an
        (CompanyDetails.init cn cdesc csp cloc cyears cweb cphone cemail cmiss cvals)
        (AgentPersonality.init pt pc pto pel prs)
        (CallContext.init cp cpri cdur cfu csm cscript ckp)
        (UserContext.init un ue up uprefs uprev unotes udem upain ugoals ubud utl)
        ind ci lang tz cr).to_dict
    = .ok (AgentConfig.init an
        (CompanyDetails.init cn cdesc csp cloc cyears cweb cphone cemail cmiss cvals)
        (AgentPersonality.init pt pc pto pel prs)
        (CallContext.init cp cpri cdur cfu csm cscript ckp)
        (UserContext.init un ue up uprefs uprev unotes udem upain ugoals ubud utl)
        ind ci lang tz cr) := by
  simp [AgentConfig.from_dict, AgentConfig.to_dict, AgentConfig.init, dget,
    personality_roundtrip, company_roundtrip, user_roundtrip,
    call_roundtrip, pyOrList_round]

/-- C3: Default-fill law — `AgentConfig.from_dict({})` produces the config
with every documented default: agent_name "Professional Assistant",
industry "real estate", language "en", no custom instructions or timezone,
empty compliance requirements, and each nested entity at its own defaults
(company name `""`, call priority "normal", `follow_up_required = False`,
empty collections). -/
theorem C3_default_fill :
    AgentConfig.from_dict ConfigDict.empty = .ok
      { agent_name := some "Professional Assistant"
        company_details :=
          { name := some "", description := none, specialties := []
            location := none, years_in_business := none, website := none
            phone := none, email := none, mission_statement := none
            values := [] }
        agent_personality :=
          { traits := some [], communication_style := some "professional"
            tone := "professional", expertise_level := "expert"
            response_speed := "conversational" }
        call_context :=
          { purpose := some "", priority := "normal"
            expected_duration := none, follow_up_required := false
            success_metrics := [], call_script := none, key_points := [] }
        user_context :=
          { name := none, email := none, phone := none, preferences := []
            previous_interactions := [], notes := none, demographics := []
            pain_points := [], goals := [], budget := none, timeline := none }
        industry := some "real estate"
        custom_instructions := none
        language := some "en"
        timezone := none
        compliance_requirements := [] } := by
  rfl

/-- C2: Legacy-adapter fallback — `from_legacy_metadata({})` succeeds and
yields agent_name "Professional Assistant", company name "Our Company" and
call purpose "general inquiry"; and for any metadata in which
`agent_config` or `user_details` is absent, the absent nested dict is
treated as `{}` (the result is the same as with an explicit empty dict),
and construction never raises (total, `.ok`) when both are absent. -/
theorem C2_legacy_fallback :
    (∃ c, AgentConfig.from_legacy_metadata LegacyMetadata.empty = .ok c ∧
      c.agent_name = some "Professional Assistant" ∧
      c.company_details.name = some "Our Company" ∧
      c.call_context.purpose = some "general inquiry") ∧
    (∀ md : LegacyMetadata, md.agent_config = none →
      AgentConfig.from_legacy_metadata md =
        AgentConfig.from_legacy_metadata
          { md with agent_config := some (some LegacyAgentConfigDict.empty) }) ∧
    (∀ md : LegacyMetadata, md.user_details = none →
      AgentConfig.from_legacy_metadata md =
        AgentConfig.from_legacy_metadata
          { md with user_details := some (some UserCtxDict.empty) }) ∧
    (∀ md : LegacyMetadata, md.agent_config = none → md.user_details = none →
      ∃ c, AgentConfig.from_legacy_metadata md = .ok c) := by
  refine ⟨⟨_, rfl, rfl, rfl, rfl⟩, ?_, ?_, ?_⟩
  · intro md h
    obtain ⟨pn, tt, cp, ud, ac, cc⟩ := md
    cases h
    rfl
  · intro md h
    obtain ⟨pn, tt, cp, ud, ac, cc⟩ := md
    cases h
    rfl
  · intro md h1 h2
    obtain ⟨pn, tt, cp, ud, ac, cc⟩ := md
    cases h1
    cases h2
    exact ⟨_, rfl⟩

/-- The concrete metadata mapping `{"call_purpose": "hello"}` (both nested
dicts absent). -/
def mdHello : LegacyMetadata :=
  { LegacyMetadata.empty with call_purpose := some (some "hello") }

/-- Witness for C2: the conditional parts instantiated at the concrete
metadata mapping `{"call_purpose": "hello"}` (both nested dicts absent). -/
theorem C2_legacy_fallback_witness :
    (AgentConfig.from_legacy_metadata mdHello =
      AgentConfig.from_legacy_metadata
        { mdHello with agent_config := some (some LegacyAgentConfigDict.empty) }) ∧
    (AgentConfig.from_legacy_metadata mdHello =
      AgentConfig.from_legacy_metadata
        { mdHello with user_details := some (some UserCtxDict.empty) }) ∧
    (∃ c, AgentConfig.from_legacy_metadata mdHello = .ok c) :=
  ⟨C2_legacy_fallback.2.1 _ rfl,
   C2_legacy_fallback.2.2.1 _ rfl,
   C2_legacy_fallback.2.2.2 _ rfl rfl⟩

/-- C5 (counterexample): the claim says an explicit `None` under `"traits"`
yields the same value as an absent key (the default `[]`); in the code the
default `[]` is supplied at the `.get` call, so an explicit `None` is
stored as `None`, different from the `[]` obtained when the key is
absent. -/
theorem C5_counterexample :
    (AgentPersonality.from_dict
        { PersonalityDict.empty with traits := some none }).traits ≠
      (AgentPersonality.from_dict PersonalityDict.empty).traits := by
  decide

/-- C5 (amended): explicit `None` is equivalent to a missing key exactly
for the fields whose default is applied by the `or`-fallback inside
`__init__` (tone, expertise_level, response_speed; specialties, values;
preferences, previous_interactions, demographics, pain_points, goals;
priority, follow_up_required, success_metrics, key_points).  For the four
fields whose default is supplied at the `from_dict` lookup itself (traits,
communication_style, CompanyDetails.name, CallContext.purpose), an
explicit `None` is stored as `None` instead of the default. -/
theorem C5_none_tolerance :
    (∀ d : PersonalityDict,
      AgentPersonality.from_dict { d with tone := some none } =
        AgentPersonality.from_dict { d with tone := none }) ∧
    (∀ d : PersonalityDict,
      AgentPersonality.from_dict { d with expertise_level := some none } =
        AgentPersonality.from_dict { d with expertise_level := none }) ∧
    (∀ d : PersonalityDict,
      AgentPersonality.from_dict { d with response_speed := some none } =
        AgentPersonality.from_dict { d with response_speed := none }) ∧
    (∀ d : CompanyDict,
      CompanyDetails.from_dict { d with specialties := some none } =
        CompanyDetails.from_dict { d with specialties := none }) ∧
    (∀ d : CompanyDict,
      CompanyDetails.from_dict { d with values := some none } =
        CompanyDetails.from_dict { d with values := none }) ∧
    (∀ d : UserCtxDict,
      UserContext.from_dict { d with preferences := some none } =
        UserContext.from_dict { d with preferences := none }) ∧
    (∀ d : UserCtxDict,
      UserContext.from_dict { d with previous_interactions := some none } =
        UserContext.from_dict { d with previous_interactions := none }) ∧
    (∀ d : UserCtxDict,
      UserContext.from_dict { d with demographics := some none } =
        UserContext.from_dict { d with demographics := none }) ∧
    (∀ d : UserCtxDict,
      UserContext.from_dict { d with pain_points := some none } =
        UserContext.from_dict { d with pain_points := none }) ∧
    (∀ d : UserCtxDict,
      UserContext.from_dict { d with goals := some none } =
        UserContext.from_dict { d with goals := none }) ∧
    (∀ d : CallCtxDict,
      CallContext.from_dict { d with priority := some none } =
        CallContext.from_dict { d with priority := none }) ∧
    (∀ d : CallCtxDict,
      CallContext.from_dict { d with follow_up_required := some none } =
        CallContext.from_dict { d with follow_up_required := none }) ∧
    (∀ d : CallCtxDict,
      CallContext.from_dict { d with success_metrics := some none } =
        CallContext.from_dict { d with success_metrics := none }) ∧
    (∀ d : CallCtxDict,
      CallContext.from_dict { d with key_points := some none } =
        CallContext.from_dict { d with key_points := none }) ∧
    (∀ d : PersonalityDict,
      (AgentPersonality.from_dict { d with traits := some none }).traits = none) ∧
    (∀ d : PersonalityDict,
      (AgentPersonality.from_dict
        { d with communication_style := some none }).communication_style = none) ∧
    (∀ d : CompanyDict,
      (CompanyDetails.from_dict { d with name := some none }).name = none) ∧
    (∀ d : CallCtxDict,
      (CallContext.from_dict { d with purpose := some none }).purpose = none) :=
  ⟨fun d => by cases d; rfl, fun d => by cases d; rfl, fun d => by cases d; rfl,
   fun d => by cases d; rfl, fun d => by cases d; rfl, fun d => by cases d; rfl,
   fun d => by cases d; rfl, fun d => by cases d; rfl, fun d => by cases d; rfl,
   fun d => by cases d; rfl, fun d => by cases d; rfl, fun d => by cases d; rfl,
   fun d => by cases d; rfl, fun d => by cases d; rfl, fun d => by cases d; rfl,
   fun d => by cases d; rfl, fun d => by cases d; rfl, fun d => by cases d; rfl⟩

/-- C9: Builder semantics — `build()` is `AgentConfig.from_dict` of the
accumulated mapping; every `with_X(entity)` stores `entity.to_dict()`
under the matching key and every scalar setter stores its value directly
(the fluent chaining of the mutated-and-returned builder is modelled by
state threading); a repeated `with_company` overwrites the earlier value,
so building after `with_company e1; with_company e2` equals building after
`with_company e2` alone. -/
theorem C9_builder :
    (∀ b : AgentConfigBuilder, b.build = AgentConfig.from_dict b._config) ∧
    (∀ (b : AgentConfigBuilder) (e : CompanyDetails),
      (b.with_company e)._config.company_details = some (some e.to_dict)) ∧
    (∀ (b : AgentConfigBuilder) (e : AgentPersonality),
      (b.with_personality e)._config.agent_personality = some (some e.to_dict)) ∧
    (∀ (b : AgentConfigBuilder) (e : CallContext),
      (b.with_call_context e)._config.call_context = some (some e.to_dict)) ∧
    (∀ (b : AgentConfigBuilder) (e : UserContext),
      (b.with_user_context e)._config.user_context = some (some e.to_dict)) ∧
    (∀ (b : AgentConfigBuilder) (n : String),
      (b.with_agent_name n)._config.agent_name = some (some n)) ∧
    (∀ (b : AgentConfigBuilder) (i : String),
      (b.with_industry i)._config.industry = some (some i)) ∧
    (∀ (b : AgentConfigBuilder) (ci : String),
      (b.with_custom_instructions ci)._config.custom_instructions = some (some ci)) ∧
    (∀ (b : AgentConfigBuilder) (lg : String),
      (b.with_language lg)._config.language = some (some lg)) ∧
    (∀ (b : AgentConfigBuilder) (tz : String),
      (b.with_timezone tz)._config.timezone = some (some tz)) ∧
    (∀ (b : AgentConfigBuilder) (rq : List String),
      (b.with_compliance_requirements rq)._config.compliance_requirements
        = some (some rq)) ∧
    (∀ (b : AgentConfigBuilder) (e1 e2 : CompanyDetails),
      ((b.with_company e1).with_company e2).build = (b.with_company e2).build) :=
  ⟨fun _ => rfl, fun _ _ => rfl, fun _ _ => rfl, fun _ _ => rfl, fun _ _ => rfl,
   fun _ _ => rfl, fun _ _ => rfl, fun _ _ => rfl, fun _ _ => rfl, fun _ _ => rfl,
   fun _ _ => rfl,
   fun b e1 e2 => by obtain ⟨⟨_, _, _, _, _, _, _, _, _, _⟩⟩ := b; rfl⟩

/-- C10: the legacy adapter pins every field not representable in the flat
legacy shape to its construction default — call priority "normal", no
follow-up, empty success metrics and key points, language "en", no
timezone, empty compliance requirements, and empty
demographics/pain_points/goals and absent budget/timeline in the user
context — for every metadata mapping, even one carrying decoy keys of
those names. -/
theorem C10_legacy_pins (md : LegacyMetadata) (c : AgentConfig)
    (h : AgentConfig.from_legacy_metadata md = .ok c) :
    c.call_context.priority = "normal" ∧
    c.call_context.follow_up_required = false ∧
    c.call_context.success_metrics = [] ∧
    c.call_context.key_points = [] ∧
    c.language = some "en" ∧
    c.timezone = none ∧
    c.compliance_requirements = [] ∧
    c.user_context.demographics = [] ∧
    c.user_context.pain_points = [] ∧
    c.user_context.goals = [] ∧
    c.user_context.budget = none ∧
    c.user_context.timeline = none := by
  unfold AgentConfig.from_legacy_metadata at h
  split at h
  · exact absurd h (by simp)
  · split at h
    · exact absurd h (by simp)
    · split at h
      · exact absurd h (by simp)
      · split at h
        · exact absurd h (by simp)
        · injection h with h'
          subst h'
          refine ⟨rfl, rfl, rfl, rfl, rfl, rfl, rfl, rfl, rfl, rfl, rfl, rfl⟩

/-- The `AgentConfig` produced by the legacy adapter on the empty metadata
mapping, written out field by field. -/
def legacyEmptyResult : AgentConfig :=
  { agent_name := some "Professional Assistant"
    company_details :=
      { name := some "Our Company", description := none, specialties := []
        location := none, years_in_business := none, website := none
        phone := none, email := none, mission_statement := none, values := [] }
    agent_personality :=
      { traits := some ["professional", "friendly", "consultative"]
        communication_style := some "warm and professional"
        tone := "professional", expertise_level := "expert"
        response_speed := "conversational" }
    call_context :=
      { purpose := some "general inquiry", priority := "normal"
        expected_duration := none, follow_up_required := false
        success_metrics := [], call_script := none, key_points := [] }
    user_context :=
      { name := none, email := none, phone := none, preferences := []
        previous_interactions := [], notes := none, demographics := []
        pain_points := [], goals := [], budget := none, timeline := none }
    industry := some "real estate"
    custom_instructions := none
    language := some "en"
    timezone := none
    compliance_requirements := [] }

/-- Witness for C10: the pinned defaults hold for the concrete result of
the adapter on the empty metadata mapping. -/
theorem C10_legacy_pins_witness :
    legacyEmptyResult.call_context.priority = "normal" ∧
    legacyEmptyResult.call_context.follow_up_required = false ∧
    legacyEmptyResult.call_context.success_metrics = [] ∧
    legacyEmptyResult.call_context.key_points = [] ∧
    legacyEmptyResult.language = some "en" ∧
    legacyEmptyResult.timezone = none ∧
    legacyEmptyResult.compliance_requirements = [] ∧
    legacyEmptyResult.user_context.demographics = [] ∧
    legacyEmptyResult.user_context.pain_points = [] ∧
    legacyEmptyResult.user_context.goals = [] ∧
    legacyEmptyResult.user_context.budget = none ∧
    legacyEmptyResult.user_context.timeline = none :=
  C10_legacy_pins LegacyMetadata.empty legacyEmptyResult (by rfl)

/-- C7: Industry knowledge selection — the knowledge block is chosen by
exact string lookup against the fixed table; "insurance" yields the
insurance block verbatim, and any industry outside the four named ones
(such as "unknown-sector") yields the "default" block verbatim. -/
theorem C7_industry_knowledge :
    PromptBuilder._get_industry_knowledge (some "insurance")
      = PromptBuilder.industryKnowledgeInsurance ∧
    PromptBuilder._get_industry_knowledge (some "unknown-sector")
      = PromptBuilder.industryKnowledgeDefault ∧
    ∀ s : String,
      s ∉ ["real estate", "insurance", "financial services", "healthcare"] →
      PromptBuilder._get_industry_knowledge (some s)
        = PromptBuilder.industryKnowledgeDefault := by
  refine ⟨rfl, rfl, ?_⟩
  intro s hs
  simp only [List.mem_cons, List.not_mem_nil, or_false, not_or] at hs
  obtain ⟨h1, h2, h3, h4⟩ := hs
  by_cases hd : s = "default"
  · subst hd; rfl
  · have e1 : (s == "real estate") = false := beq_eq_false_iff_ne.mpr h1
    have e2 : (s == "insurance") = false := beq_eq_false_iff_ne.mpr h2
    have e3 : (s == "financial services") = false := beq_eq_false_iff_ne.mpr h3
    have e4 : (s == "healthcare") = false := beq_eq_false_iff_ne.mpr h4
    have e5 : (s == "default") = false := beq_eq_false_iff_ne.mpr hd
    simp [PromptBuilder._get_industry_knowledge, PromptBuilder.knowledgeMap,
      List.lookup, e1, e2, e3, e4, e5]

/-- Witness for C7: an industry outside the table selects the default
block. -/
theorem C7_industry_knowledge_witness :
    PromptBuilder._get_industry_knowledge (some "retail")
      = PromptBuilder.industryKnowledgeDefault :=
  C7_industry_knowledge.2.2 "retail" (by decide)

/-- C6 (counterexample): the claim says a present `years_in_business`
value — including 0 — is rendered; but on a company whose only optional
field is `years_in_business = 0` the rendered company block is the empty
string (Python truthiness drops the 0), with no "Experience" line at
all. -/
theorem C6_counterexample :
    (CompanyDetails.init (some "Zed") none none none (some 0)
      none none none none none).years_in_business = some 0 ∧
    PromptBuilder._format_company_info
      (CompanyDetails.init (some "Zed") none none none (some 0)
        none none none none none) = "" :=
  ⟨rfl, rfl⟩

/-- The company block as the amended claim describes it: one labelled line
per field that is present and truthy (non-empty string, non-empty list,
and for `years_in_business` present *and non-zero*), in the fixed order
description, specialties, location, years_in_business, mission_statement,
values; absent or falsy fields contribute no line. -/
def companyBlockLines (cd : CompanyDetails) : List String :=
  (match cd.description with
   | some s => if s = "" then [] else ["Company Description: " ++ s]
   | none => [])
  ++ (if cd.specialties = [] then []
      else ["Company Specialties: " ++ String.intercalate ", " cd.specialties])
  ++ (match cd.location with
   | some s => if s = "" then [] else ["Service Area: " ++ s]
   | none => [])
  ++ (match cd.years_in_business with
   | some n =>
     if n = 0 then [] else ["Experience: " ++ toString n ++ " years in business"]
   | none => [])
  ++ (match cd.mission_statement with
   | some s => if s = "" then [] else ["Mission: " ++ s]
   | none => [])
  ++ (if cd.values = [] then []
      else ["Company Values: " ++ String.intercalate ", " cd.values])

/-- A truthiness-guarded singleton over an optional string equals its
explicit case analysis. -/
theorem seg_str (o : Option String) (lbl : String) :
    (if pyTruthyStr o then [lbl ++ interpStr o] else []) =
      (match o with
       | some s => if s = "" then [] else [lbl ++ s]
       | none => []) := by
  cases o with
  | none => rfl
  | some s => by_cases h : s = "" <;> simp [pyTruthyStr, interpStr, h]

/-- `List.isEmpty` and `= []` agree as guards. -/
theorem seg_list {α : Type} [DecidableEq α] (l : List α) (x : List α) :
    (if l.isEmpty then [] else x) = (if l = [] then [] else x) := by
  cases l <;> simp

/-- A truthiness-guarded Experience line over an optional integer equals
its explicit case analysis with the non-zero condition. -/
theorem seg_years (y : Option Int) :
    (if pyTruthyInt y then
      ["Experience: " ++ interpInt y ++ " years in business"] else []) =
      (match y with
       | some n =>
         if n = 0 then []
         else ["Experience: " ++ toString n ++ " years in business"]
       | none => []) := by
  cases y with
  | none => rfl
  | some n => by_cases h : n = 0 <;> simp [pyTruthyInt, interpInt, h]

/-- Joining an empty parts list yields the empty string anyway, so the
explicit emptiness guard collapses. -/
theorem intercalate_guard (L : List String) :
    (if L.isEmpty then "" else String.intercalate "\n" L)
      = String.intercalate "\n" L := by
  cases L <;> rfl

/-- C6 (amended): for every company, the rendered company block is exactly
the newline-join of one labelled line per present *truthy* field
(non-empty strings and lists, non-zero `years_in_business`), in the order
description, specialties, location, years_in_business, mission_statement,
values; absent — or zero — fields produce no line. -/
theorem C6_company_block (cd : CompanyDetails) :
    PromptBuilder._format_company_info cd
      = String.intercalate "\n" (companyBlockLines cd) := by
  unfold PromptBuilder._format_company_info companyBlockLines
  rw [seg_str cd.description, seg_str cd.location, seg_str cd.mission_statement,
    seg_years cd.years_in_business, seg_list cd.specialties, seg_list cd.values,
    intercalate_guard]

/-! ## The section-8 end-to-end scenario configuration -/

/-- `CompanyDetails(name="Acme", specialties=["a","b"])`. -/
def scenarioCompany : CompanyDetails :=
  CompanyDetails.init (some "Acme") none (some ["a", "b"]) none none
    none none none none none

/-- `AgentPersonality(traits=["x","y"], communication_style="calm")`. -/
def scenarioPersonality : AgentPersonality :=
  AgentPersonality.init (some ["x", "y"]) (some "calm") none none none

/-- `CallContext(purpose="intro call")`. -/
def scenarioCall : CallContext :=
  CallContext.init (some "intro call") none none none none none none

/-- `UserContext(name="Bob")` (budget absent). -/
def scenarioUser : UserContext :=
  UserContext.init (some "Bob") none none none none none none none none
    none none

/-- `AgentConfig(agent_name="Ana", industry="insurance", ...)` over the
scenario entities. -/
def scenarioConfig : AgentConfig :=
  AgentConfig.init (some "Ana") scenarioCompany scenarioPersonality
    scenarioCall scenarioUser (some "insurance") none (some "en") none none

/-- The scenario user with `budget="$1.5M–2M"`. -/
def scenarioUserBudget : UserContext :=
  UserContext.init (some "Bob") none none none none none none none none
    (some "$1.5M–2M") none

/-- The scenario config with the budgeted user context. -/
def scenarioConfigBudget : AgentConfig :=
  AgentConfig.init (some "Ana") scenarioCompany scenarioPersonality
    scenarioCall scenarioUserBudget (some "insurance") none (some "en")
    none none

/-- C4 (counterexample): the five claimed substrings do NOT occur in the
claimed relative order — in the rendered template the user block
("Client Name: Bob") precedes the "Call Purpose:" line, while the claim
orders "Call Purpose: intro call" before "Client Name: Bob". -/
theorem C4_counterexample :
    containsInOrder (PromptBuilder.build_prompt scenarioConfig)
      ["You are Ana", "Company Specialties: a, b", "Call Purpose: intro call",
       "Client Name: Bob", PromptBuilder.industryKnowledgeInsurance] = false := by
  decide

/-- C4 (amended): the rendered scenario prompt contains the literal
substrings "You are Ana", "Company Specialties: a, b", "Client Name: Bob",
"Call Purpose: intro call" and the insurance knowledge paragraph, in that
relative order (client name before call purpose). -/
theorem C4_scenario_order :
    containsInOrder (PromptBuilder.build_prompt scenarioConfig)
      ["You are Ana", "Company Specialties: a, b", "Client Name: Bob",
       "Call Purpose: intro call", PromptBuilder.industryKnowledgeInsurance]
      = true := by
  decide

/-! ## Budget-line machinery for C8 -/

/-- A rendered part/line opens a budget entry. -/
def isBudgetLine (l : String) : Bool :=
  isPrefixL "Budget: ".data l.data

/-- Prefix testing only inspects the first `p.length` characters. -/
theorem isPrefixL_append_of_le (p a b : List Char) (h : p.length ≤ a.length) :
    isPrefixL p (a ++ b) = isPrefixL p a := by
  induction p generalizing a with
  | nil => simp [isPrefixL]
  | cons x xs ih =>
    cases a with
    | nil => simp at h
    | cons y ys =>
      have h' : xs.length ≤ ys.length := by simpa using h
      simp only [List.cons_append, isPrefixL, List.append_eq]
      rw [ih ys h']

/-- A line opening with a label at least as long as `"Budget: "` but
different from it is not a budget line, whatever follows the label. -/
theorem isBudgetLine_label (lbl x : String)
    (hlen : ("Budget: ".data).length ≤ (lbl.data).length)
    (hlbl : isPrefixL "Budget: ".data lbl.data = false) :
    isBudgetLine (lbl ++ x) = false := by
  unfold isBudgetLine
  rw [String.data_append, isPrefixL_append_of_le _ _ _ hlen, hlbl]

/-- A line opening with the budget label is a budget line. -/
theorem isBudgetLine_budget (x : String) :
    isBudgetLine ("Budget: " ++ x) = true := by
  unfold isBudgetLine
  rw [String.data_append, isPrefixL_append_of_le _ _ _ (le_refl _)]
  decide

/-- Filtering a guarded singleton whose element fails the predicate
yields nothing. -/
theorem filter_guard_false {p : String → Bool} {x : String}
    (hx : p x = false) (c : Prop) [Decidable c] :
    List.filter p (if c then [x] else []) = [] := by
  split
  · simp [List.filter, hx]
  · rfl

/-- Filtering a reversed guarded singleton whose element fails the
predicate yields nothing. -/
theorem filter_guard_false' {p : String → Bool} {x : String}
    (hx : p x = false) (c : Prop) [Decidable c] :
    List.filter p (if c then [] else [x]) = [] := by
  split
  · rfl
  · simp [List.filter, hx]

/-- Filtering a guarded singleton whose element passes the predicate
keeps the guard. -/
theorem filter_guard_true {p : String → Bool} {x : String}
    (hx : p x = true) (c : Prop) [Decidable c] :
    List.filter p (if c then [x] else []) = if c then [x] else [] := by
  split <;> simp [List.filter, hx]

/-- C8: Optional-field omission for budget — in every rendered user block
the number of budget lines is 1 when `budget` is truthy and 0 when it is
absent; concretely, the scenario prompt without a budget contains no
occurrence of "Budget:" at all, while with `budget="$1.5M–2M"` the whole
newline-delimited line "Budget: $1.5M–2M" occurs and "Budget:" does not
occur twice (disjointly), i.e. that budget line is emitted exactly
once. -/
theorem C8_budget_line :
    (∀ u : UserContext,
      ((PromptBuilder._user_info_parts u).filter isBudgetLine).length
        = if pyTruthyStr u.budget then 1 else 0) ∧
    containsSub (PromptBuilder.build_prompt scenarioConfig) "Budget:" = false ∧
    containsSub (PromptBuilder.build_prompt scenarioConfigBudget)
      "\nBudget: $1.5M\u20132M\n" = true ∧
    containsInOrder (PromptBuilder.build_prompt scenarioConfigBudget)
      ["Budget:", "Budget:"] = false := by
  refine ⟨?_, by decide, by decide, by decide⟩
  intro u
  unfold PromptBuilder._user_info_parts
  simp only [List.filter_append,
    filter_guard_false (isBudgetLine_label "Client Name: "
      (interpStr u.name) (by decide) (by decide)),
    filter_guard_false (isBudgetLine_label "Client Email: "
      (interpStr u.email) (by decide) (by decide)),
    filter_guard_false (isBudgetLine_label "Client Phone: "
      (interpStr u.phone) (by decide) (by decide)),
    filter_guard_false' (isBudgetLine_label "Client Preferences: "
      (jsonDumpsMap u.preferences) (by decide) (by decide)),
    filter_guard_false' (isBudgetLine_label "Previous Interactions: "
      (jsonDumpsList u.previous_interactions) (by decide) (by decide)),
    filter_guard_false (isBudgetLine_label "Additional Notes: "
      (interpStr u.notes) (by decide) (by decide)),
    filter_guard_false' (isBudgetLine_label "Client Goals: "
      (String.intercalate ", " u.goals) (by decide) (by decide)),
    filter_guard_false (isBudgetLine_label "Timeline: "
      (interpStr u.timeline) (by decide) (by decide)),
    filter_guard_true (isBudgetLine_budget (interpStr u.budget)),
    List.length_append, List.nil_append, List.append_nil,
    List.filter_nil, List.length_nil]
  by_cases hb : pyTruthyStr u.budget = true <;> simp [hb]
